import Mathlib

/-!
Verification development for the Coway homebridge plugin core
(session negotiation, token refresh, device polling, and the Marvel
air-purifier domain mapper / command translator).

The definitions below are a shallow embedding of the TypeScript source:
  - src/homebridge/coway.ts                          (CowayService)
  - src/homebridge/accessories/air-purifiers/marvel-air-purifier.ts
  - the platform file (CowayPlatform.refreshDevicesParallel)
JavaScript numbers are modelled as rationals, machine strings as Lean
strings, fallible operations as Option.  Vendor enum string constants that
come from the repository's enumerations module (not part of the sources at
hand) are modelled as distinct opaque string literals: only their identity
is ever consulted by the embedded code.
-/

/-- A JavaScript value as it can appear in a vendor JSON payload field:
`undefined`, `null`, a string, a (finite) number, or `NaN`. -/
inductive JSVal where
  | undef : JSVal
  | null : JSVal
  | str : String → JSVal
  | num : ℚ → JSVal
  | nan : JSVal
deriving DecidableEq

/-- JavaScript truthiness test (`!v` in the source is `jsFalsy v`). -/
def jsFalsy : JSVal → Bool
  | .undef => true
  | .null => true
  | .nan => true
  | .str s => s = ""
  | .num q => q = 0

/-- The whitespace characters skipped by JavaScript's numeric parsers. -/
def isJsWhitespace (c : Char) : Bool :=
  c = ' ' ∨ c = '\t' ∨ c = '\n' ∨ c = '\r' ∨ c = '\x0b' ∨ c = '\x0c'

def isDigitChar (c : Char) : Bool := '0' ≤ c ∧ c ≤ '9'

def digitsToNat (ds : List Char) : Nat :=
  ds.foldl (fun a c => a * 10 + (c.toNat - 48)) 0

/-- JavaScript `parseInt(s, 10)`: skip whitespace, optional sign, then the
longest digit prefix; `none` models the `NaN` result. -/
def jsParseInt (s : String) : Option Int :=
  let cs := s.data.dropWhile isJsWhitespace
  let p : Int × List Char :=
    match cs with
    | '-' :: t => (-1, t)
    | '+' :: t => (1, t)
    | _ => (1, cs)
  let ds := p.2.takeWhile isDigitChar
  if ds.isEmpty then none else some (p.1 * digitsToNat ds)

/-- JavaScript `parseFloat(s)`: skip whitespace, optional sign, decimal
mantissa, optional exponent; `none` models the `NaN` result.  (The literal
"Infinity" is not modelled: the vendor's numeric fields are finite decimal
renderings.) -/
def jsParseFloat (s : String) : Option ℚ :=
  let cs := s.data.dropWhile isJsWhitespace
  let p : ℚ × List Char :=
    match cs with
    | '-' :: t => (-1, t)
    | '+' :: t => (1, t)
    | _ => (1, cs)
  let ipart := p.2.takeWhile isDigitChar
  let rest := p.2.dropWhile isDigitChar
  let fp : List Char × List Char :=
    match rest with
    | '.' :: t => (t.takeWhile isDigitChar, t.dropWhile isDigitChar)
    | _ => ([], rest)
  if ipart.isEmpty ∧ fp.1.isEmpty then none
  else
    let mant : ℚ := (digitsToNat ipart : ℚ) + (digitsToNat fp.1 : ℚ) / ((10 : ℚ) ^ fp.1.length)
    let expo : Int :=
      match fp.2 with
      | 'e' :: t =>
        (match t with
         | '-' :: u => if (u.takeWhile isDigitChar).isEmpty then 0
                       else -(digitsToNat (u.takeWhile isDigitChar) : Int)
         | '+' :: u => if (u.takeWhile isDigitChar).isEmpty then 0
                       else (digitsToNat (u.takeWhile isDigitChar) : Int)
         | _ => if (t.takeWhile isDigitChar).isEmpty then 0
                else (digitsToNat (t.takeWhile isDigitChar) : Int))
      | 'E' :: t =>
        (match t with
         | '-' :: u => if (u.takeWhile isDigitChar).isEmpty then 0
                       else -(digitsToNat (u.takeWhile isDigitChar) : Int)
         | '+' :: u => if (u.takeWhile isDigitChar).isEmpty then 0
                       else (digitsToNat (u.takeWhile isDigitChar) : Int)
         | _ => if (t.takeWhile isDigitChar).isEmpty then 0
                else (digitsToNat (t.takeWhile isDigitChar) : Int))
      | _ => 0
    some (p.1 * mant * (10 : ℚ) ^ expo)

/-- Truncation toward zero, as JavaScript `parseInt` performs on the decimal
rendering of a (plain-decimal) number. -/
def jsTrunc (q : ℚ) : Int := if 0 ≤ q then ⌊q⌋ else -(⌊-q⌋)

/-- `parseInt(v, 10)` on an arbitrary JS value; `undefined`, `null`, `NaN`
all stringify to non-numeric text and yield `NaN` (`none`). -/
def jsvalParseInt : JSVal → Option Int
  | .str s => jsParseInt s
  | .num q => some (jsTrunc q)
  | _ => none

/-- `parseFloat(v)` on an arbitrary JS value. -/
def jsvalParseFloat : JSVal → Option ℚ
  | .str s => jsParseFloat s
  | .num q => some q
  | _ => none

/-- `MarvelAirPurifier.parseNullableInt`: default 0 for falsy input (other
than the string "0") and for a `NaN` parse. -/
def parseNullableInt (v : JSVal) : Int :=
  if jsFalsy v = true ∧ v ≠ JSVal.str "0" then 0
  else match jsvalParseInt v with
    | none => 0
    | some n => n

/-- `MarvelAirPurifier.parseNullableFloat`: default 0 for falsy input (other
than the string "0") and for a `NaN` parse. -/
def parseNullableFloat (v : JSVal) : ℚ :=
  if jsFalsy v = true ∧ v ≠ JSVal.str "0" then 0
  else match jsvalParseFloat v with
    | none => 0
    | some q => q

/-!
Vendor enumeration constants (from the repository's enumerations module).
The two values the spec pins down are Light ON = "0" and Light OFF = "3",
and Power ON = "1" / OFF = "0".  The Mode and FanSpeed member strings are
opaque vendor codes; only their identity and, for FanSpeed, their declared
order matter, so they are modelled as distinct literals.
-/

namespace Power
def ON : String := "1"
def OFF : String := "0"
end Power

namespace Light
def ON : String := "0"
def OFF : String := "3"
end Light

namespace Mode
def AUTO_DRIVING : String := "mode_auto_driving"
def SILENT : String := "mode_silent"
def TURBO : String := "mode_turbo"
def MY_PET : String := "mode_my_pet"
end Mode

namespace FanSpeed
def SHUTDOWN : String := "fan_shutdown"
def WEAK : String := "fan_weak"
def MEDIUM : String := "fan_medium"
def STRONG : String := "fan_strong"
def TURBO : String := "fan_turbo"
def MY_PET : String := "fan_my_pet"

/-- `Object.values(FanSpeed)` in declaration order.  The source comments
state `values.indexOf(FanSpeed.WEAK) => 1` and that the result of
`indexOf + 1` ranges over 1..6, which fixes SHUTDOWN at index 0 and the
speed names after it. -/
def values : List String := [SHUTDOWN, WEAK, MEDIUM, STRONG, TURBO, MY_PET]
end FanSpeed

/-- JavaScript `Array.prototype.indexOf`: first index or -1. -/
def jsIndexOf (l : List String) (x : JSVal) : Int :=
  match l with
  | [] => -1
  | a :: rest =>
    if JSVal.str a = x then 0
    else
      let r := jsIndexOf rest x
      if r = -1 then -1 else r + 1

/-- The keys of the vendor's `controlStatus` object consulted by the mapper
(the concrete wire strings live in the enumerations module; only identity
is used). -/
inductive FieldKey where
  | POWER | LIGHT | LIGHT_BRIGHTNESS | AIR_QUALITY | MODE | FAN_SPEED
deriving DecidableEq

/-- A vendor `controlStatus` object, as a total map from consulted keys to
JS field values (`JSVal.undef` models a missing key). -/
def ControlStatus : Type := FieldKey → JSVal

structure LightbulbInfo where
  «on» : Bool
  /-- `none` models a context whose brightness field is `undefined`. -/
  brightness : Option Int
deriving DecidableEq

structure ControlInfo where
  «on» : Bool
  lightbulbInfo : LightbulbInfo
  /-- `parseInt` without a NaN guard: `none` models NaN. -/
  airQuality : Option Int
  /-- Raw JS value of the vendor mode field. -/
  mode : JSVal
  /-- Raw JS value of the vendor fan-speed field. -/
  fanSpeed : JSVal
deriving DecidableEq

structure IndoorAirQuality where
  humidity : Option ℚ
  pm25Density : Option ℚ
  pm10Density : Option ℚ
  temperature : Option ℚ
  vocDensity : Option ℚ
deriving DecidableEq

structure FilterInfo where
  filterName : JSVal
  filterCode : JSVal
  filterPercentage : Int
deriving DecidableEq

/-- `MarvelAirPurifier.getControlInfo`.  `none` input models a response with
a missing/falsy `controlStatus`. -/
def getControlInfo (resp : Option ControlStatus) : ControlInfo :=
  match resp with
  | none =>
    { «on» := false
      lightbulbInfo := { «on» := false, brightness := some 0 }
      airQuality := some 1
      mode := JSVal.str Mode.AUTO_DRIVING
      fanSpeed := JSVal.str FanSpeed.SHUTDOWN }
  | some status =>
    { «on» := status FieldKey.POWER = JSVal.str "1"
      lightbulbInfo :=
        { «on» := status FieldKey.LIGHT = JSVal.str "0"
          brightness := some (parseNullableInt (status FieldKey.LIGHT_BRIGHTNESS)) }
      airQuality := jsvalParseInt (status FieldKey.AIR_QUALITY)
      mode := status FieldKey.MODE
      fanSpeed := status FieldKey.FAN_SPEED }

/-- The vendor "IAQ" object of the home endpoint response. -/
structure IAQRaw where
  humidity : JSVal
  dustpm25 : JSVal
  dustpm10 : JSVal
  temperature : JSVal
  vocs : JSVal

/-- `MarvelAirPurifier.getIndoorAirQuality`.  `none` input models a
response with a missing/falsy `IAQ` object. -/
def getIndoorAirQuality (resp : Option IAQRaw) : IndoorAirQuality :=
  match resp with
  | none =>
    { humidity := some 0, pm25Density := some 0, pm10Density := some 0
      temperature := some 0, vocDensity := some 0 }
  | some r =>
    { humidity := some (parseNullableFloat r.humidity)
      pm25Density := some (parseNullableFloat r.dustpm25)
      pm10Density := some (parseNullableFloat r.dustpm10)
      temperature := some (parseNullableFloat r.temperature)
      vocDensity := some (parseNullableFloat r.vocs) }

/-- One entry of the vendor `filterList` array. -/
structure FilterRaw where
  filterName : JSVal
  filterCode : JSVal
  filterPer : JSVal

/-- `MarvelAirPurifier.getFilterInfos`.  `none` input models a response
whose `filterList` is missing or not an array. -/
def getFilterInfos (resp : Option (List FilterRaw)) : List FilterInfo :=
  match resp with
  | none => []
  | some filters =>
    filters.map fun f =>
      { filterName := f.filterName
        filterCode := f.filterCode
        filterPercentage := parseNullableInt f.filterPer }

/-! HomeKit (HAP) characteristic constants used by the mapper. -/

namespace HapAirQuality
def UNKNOWN : Int := 0
def EXCELLENT : Int := 1
def GOOD : Int := 2
def FAIR : Int := 3
def INFERIOR : Int := 4
def POOR : Int := 5
end HapAirQuality

/-- `100 / 3.0`, the brightness quantization unit. -/
def LIGHTBULB_BRIGHTNESS_UNIT : ℚ := 100 / 3

/-- `100 / 6.0`, the rotation-speed quantization unit. -/
def ROTATION_SPEED_UNIT : ℚ := 100 / 6

/-- `MarvelAirPurifier.getRotationSpeed`: SHUTDOWN is reported as 0,
otherwise the fan-speed enum index + 1 (1..6). -/
def getRotationSpeed (fanSpeed : JSVal) : Int :=
  if fanSpeed = JSVal.str FanSpeed.SHUTDOWN then 0
  else jsIndexOf FanSpeed.values fanSpeed + 1

/-- `MarvelAirPurifier.getRotationSpeedPercentage`. -/
def getRotationSpeedPercentage (fanSpeed : JSVal) : ℚ :=
  (getRotationSpeed fanSpeed : ℚ) * ROTATION_SPEED_UNIT

/-- The handler's percentage decoding
`parseInt((value / ROTATION_SPEED_UNIT).toFixed(0))`: for the non-negative
values HomeKit delivers, rounding half away from zero is `⌊x + 1/2⌋`. -/
def rotationLevelOfPercent (value : ℚ) : Int :=
  ⌊value / ROTATION_SPEED_UNIT + 1 / 2⌋

/-- The Brightness handler's decoding
`Math.round(value / LIGHTBULB_BRIGHTNESS_UNIT)` (round half toward +∞). -/
def brightnessLevelOfPercent (value : ℚ) : Int :=
  ⌊value / LIGHTBULB_BRIGHTNESS_UNIT + 1 / 2⌋

/-- `MarvelAirPurifier.getLightbulbBrightnessPercentage`. -/
def getLightbulbBrightnessPercentage (brightness : Option Int) : Option ℚ :=
  match brightness with
  | none => none
  | some b => some ((b : ℚ) * LIGHTBULB_BRIGHTNESS_UNIT)

/-- `MarvelAirPurifier.isNotNull` on an optional numeric field (`none`
models null/undefined/NaN). -/
def isNotNull (v : Option ℚ) : Bool := v.isSome

/-- The PM10 branch of `getCurrentAirQuality` (fixed breakpoints). -/
def pm10Level (pm10 : ℚ) : Int :=
  if pm10 < 0 then HapAirQuality.UNKNOWN
  else if pm10 ≤ 10 then HapAirQuality.EXCELLENT
  else if pm10 ≤ 30 then HapAirQuality.GOOD
  else if pm10 ≤ 80 then HapAirQuality.FAIR
  else if pm10 ≤ 150 then HapAirQuality.INFERIOR
  else HapAirQuality.POOR

/-- The PM2.5 branch of `getCurrentAirQuality` (fixed breakpoints). -/
def pm25Level (pm25 : ℚ) : Int :=
  if pm25 < 0 then HapAirQuality.UNKNOWN
  else if pm25 ≤ 5 then HapAirQuality.EXCELLENT
  else if pm25 ≤ 15 then HapAirQuality.GOOD
  else if pm25 ≤ 35 then HapAirQuality.FAIR
  else if pm25 ≤ 75 then HapAirQuality.INFERIOR
  else HapAirQuality.POOR

/-- `Math.max(...levels)` over the collected per-pollutant levels. -/
def levelsMax : List Int → Int
  | [] => 0
  | [a] => a
  | a :: rest => max a (levelsMax rest)

/-- `MarvelAirPurifier.getCurrentAirQuality`: UNKNOWN when the purifier is
off; otherwise classify each available density and take the maximum
(worse) level; UNKNOWN when no density is available. -/
def getCurrentAirQuality (isOn : Bool) (iaq : IndoorAirQuality) : Int :=
  if ¬isOn then HapAirQuality.UNKNOWN
  else
    let levels : List Int :=
      (match iaq.pm10Density with
       | some pm10 => [pm10Level pm10]
       | none => []) ++
      (match iaq.pm25Density with
       | some pm25 => [pm25Level pm25]
       | none => [])
    if levels.isEmpty then HapAirQuality.UNKNOWN
    else levelsMax levels

/-- The spec's reference classifier, written from the spec's words:
classify PM10 and PM2.5 independently into the 5-level ordinal with the
fixed breakpoints (negative reading = unknown), report the worse (higher)
of the two available classifications, and report unknown when the device
is off or no density reading is available. -/
def specAirQuality (isOn : Bool) (pm10 pm25 : Option ℚ) : Int :=
  if ¬isOn then HapAirQuality.UNKNOWN
  else
    match pm10, pm25 with
    | none, none => HapAirQuality.UNKNOWN
    | some a, none => pm10Level a
    | none, some b => pm25Level b
    | some a, some b => max (pm10Level a) (pm25Level b)

/-- One vendor control command (`funcId`/`cmdVal` pair of the batch sent
through `executeSetPayloads`). -/
structure PayloadCommand where
  key : FieldKey
  value : String
deriving DecidableEq

/-- `MarvelAirPurifier.createCommandFromRotationSpeed`: levels 1, 5, 6 map
to mode commands, 2..4 to fan-speed commands, anything else is invalid. -/
def createCommandFromRotationSpeed (rotationSpeed : Int) : Option PayloadCommand :=
  if rotationSpeed = 1 then some ⟨FieldKey.MODE, Mode.SILENT⟩
  else if rotationSpeed = 2 then some ⟨FieldKey.FAN_SPEED, FanSpeed.WEAK⟩
  else if rotationSpeed = 3 then some ⟨FieldKey.FAN_SPEED, FanSpeed.MEDIUM⟩
  else if rotationSpeed = 4 then some ⟨FieldKey.FAN_SPEED, FanSpeed.STRONG⟩
  else if rotationSpeed = 5 then some ⟨FieldKey.MODE, Mode.TURBO⟩
  else if rotationSpeed = 6 then some ⟨FieldKey.MODE, Mode.MY_PET⟩
  else none

/-- The RotationSpeed SET handler: returns the batch of vendor commands the
handler sends (empty when it returns without a vendor call, including the
invalid-speed error path). -/
def setFanPercentage (ctx : ControlInfo) (characteristicRefreshing : Bool)
    (value : ℚ) : List PayloadCommand :=
  let oldRotationSpeed := getRotationSpeed ctx.fanSpeed
  let newRotationSpeed := rotationLevelOfPercent value
  if ctx.mode = JSVal.str Mode.AUTO_DRIVING ∧ characteristicRefreshing then []
  else if oldRotationSpeed = newRotationSpeed then []
  else if ctx.on = false then
    match createCommandFromRotationSpeed newRotationSpeed with
    | some c => [⟨FieldKey.POWER, Power.ON⟩, c]
    | none => []
  else if newRotationSpeed = 0 then []
  else
    match createCommandFromRotationSpeed newRotationSpeed with
    | some c => [c]
    | none => []

/-- The Lightbulb `On` SET handler: the batch sent and the resulting local
control state. -/
def setLightOn (ctx : ControlInfo) (value : Bool) :
    List PayloadCommand × ControlInfo :=
  if ctx.lightbulbInfo.on = value then ([], ctx)
  else if ctx.on = false ∧ value = true then ([⟨FieldKey.POWER, Power.ON⟩], ctx)
  else
    let ctx1 := { ctx with lightbulbInfo := { ctx.lightbulbInfo with «on» := value } }
    ([⟨FieldKey.LIGHT, if value then Light.ON else Light.OFF⟩], ctx1)

/-- The Lightbulb `Brightness` SET handler: the batch sent and the
resulting local control state. -/
def setLightBrightness (ctx : ControlInfo) (value : ℚ) :
    List PayloadCommand × ControlInfo :=
  let brightness := brightnessLevelOfPercent value
  if ctx.lightbulbInfo.brightness = some brightness then ([], ctx)
  else
    let ctx1 := { ctx with lightbulbInfo :=
      { ctx.lightbulbInfo with brightness := some brightness } }
    if brightness = 0 then
      let ctx2 := { ctx1 with lightbulbInfo :=
        { ctx1.lightbulbInfo with «on» := false } }
      ([⟨FieldKey.LIGHT, Light.OFF⟩], ctx2)
    else
      ((if ctx.on = false then [⟨FieldKey.POWER, Power.ON⟩] else []) ++
        [⟨FieldKey.LIGHT_BRIGHTNESS, toString brightness⟩], ctx1)

/-- The AirPurifier `Active` SET handler (`setPower`): the batch sent and
the resulting local control state.  On power-off it also forces the local
light state off (brightness to 0 when the field is present). -/
def setPower (ctx : ControlInfo) (value : Bool) :
    List PayloadCommand × ControlInfo :=
  if value = ctx.on then ([], ctx)
  else
    let ctx1 := { ctx with «on» := value }
    let ctx2 :=
      if value = false then
        { ctx1 with lightbulbInfo :=
          { «on» := false
            brightness :=
              match ctx1.lightbulbInfo.brightness with
              | some _ => some 0
              | none => none } }
      else ctx1
    ([⟨FieldKey.POWER, if value then Power.ON else Power.OFF⟩], ctx2)

/-! The poll-refresh path of the accessory. -/

/-- The three per-endpoint raw responses a Marvel purifier receives each
poll cycle. -/
structure AccessoryResponses where
  control : Option ControlStatus
  home : Option IAQRaw
  filterList : Option (List FilterRaw)

/-- The persisted accessory context fields replaced by a successful poll. -/
structure MarvelCtx where
  filterInfos : List FilterInfo
  indoorAirQuality : IndoorAirQuality
  controlInfo : ControlInfo

/-- `getPurifierDrivingStrategy` (TargetAirPurifierState AUTO = 1,
MANUAL = 0). -/
def getPurifierDrivingStrategy (mode : JSVal) : Int :=
  if mode = JSVal.str Mode.AUTO_DRIVING then 1 else 0

/-- `getCurrentAirPurifierState` (INACTIVE = 0, IDLE = 1,
PURIFYING_AIR = 2). -/
def getCurrentAirPurifierState (ctx : ControlInfo) : Int :=
  if ¬ctx.on then 0
  else if ctx.mode = JSVal.str Mode.SILENT then 1
  else 2

/-- One HomeKit characteristic update pushed during a refresh. -/
inductive CharUpdate where
  | active (isOn : Bool)
  | currentState (v : Int)
  | targetState (v : Int)
  | rotationSpeed (v : ℚ)
  | lightbulbOn (b : Bool)
  | brightness (v : ℚ)
  | airQualityLevel (v : Int)
  | pm10Density (v : ℚ)
  | pm25Density (v : ℚ)
  | vocDensity (v : ℚ)
  | humidity (v : ℚ)
  | temperature (v : ℚ)
deriving DecidableEq

/-- `setOptionalCharacteristic`: the update is pushed only when the value
is present (not null/undefined/NaN). -/
def optUpdate (f : ℚ → CharUpdate) (v : Option ℚ) : List CharUpdate :=
  match v with
  | some q => [f q]
  | none => []

/-- `MarvelAirPurifier.refresh`.  The `isConnected` flag is computed by the
accessory base class (not among the sources at hand); modelled from the
spec, the base class only tracks connectivity from the device's
`netStatus`, so it is taken here as an input.  When the device is not
connected the method returns early: the stored context is unchanged and no
characteristic update is pushed. -/
def refresh (isConnected : Bool) (responses : AccessoryResponses)
    (ctx : MarvelCtx) : MarvelCtx × List CharUpdate :=
  if ¬isConnected then (ctx, [])
  else
    let ctx1 : MarvelCtx :=
      { filterInfos := getFilterInfos responses.filterList
        indoorAirQuality := getIndoorAirQuality responses.home
        controlInfo := getControlInfo responses.control }
    (ctx1,
      [CharUpdate.active ctx1.controlInfo.on,
       CharUpdate.currentState (getCurrentAirPurifierState ctx1.controlInfo),
       CharUpdate.targetState (getPurifierDrivingStrategy ctx1.controlInfo.mode),
       CharUpdate.rotationSpeed (getRotationSpeedPercentage ctx1.controlInfo.fanSpeed),
       CharUpdate.lightbulbOn (ctx1.controlInfo.on && ctx1.controlInfo.lightbulbInfo.on)]
      ++ optUpdate CharUpdate.brightness
           (getLightbulbBrightnessPercentage ctx1.controlInfo.lightbulbInfo.brightness)
      ++ [CharUpdate.airQualityLevel
           (getCurrentAirQuality ctx1.controlInfo.on ctx1.indoorAirQuality)]
      ++ optUpdate CharUpdate.pm10Density ctx1.indoorAirQuality.pm10Density
      ++ optUpdate CharUpdate.pm25Density ctx1.indoorAirQuality.pm25Density
      ++ optUpdate CharUpdate.vocDensity ctx1.indoorAirQuality.vocDensity
      ++ optUpdate CharUpdate.humidity ctx1.indoorAirQuality.humidity
      ++ optUpdate CharUpdate.temperature ctx1.indoorAirQuality.temperature)

/-! Session negotiation (`CowayService.authenticate`). -/

/-- One HTTP response to a login POST, as far as the negotiation control
flow consults it: the final request path.  (The body, from which a fresh
session code is scraped before a retry, does not influence the control
flow and is omitted.) -/
structure AuthResponse where
  path : String
deriving DecidableEq

/-- Strip `pat` from the front of a character list, when it is a prefix. -/
def dropPrefixChars : List Char → List Char → Option (List Char)
  | [], cs => some cs
  | _ :: _, [] => none
  | p :: ps, c :: cs => if p = c then dropPrefixChars ps cs else none

/-- Substring containment (`indexOf(pat) !== -1`). -/
def listContains (pat : List Char) : List Char → Bool
  | [] => (dropPrefixChars pat []).isSome
  | c :: rest =>
    (dropPrefixChars pat (c :: rest)).isSome || listContains pat rest

/-- The characters after the first occurrence of `pat`, if any. -/
def afterFirstOccurrence (pat : List Char) : List Char → Option (List Char)
  | [] => dropPrefixChars pat []
  | c :: rest =>
    match dropPrefixChars pat (c :: rest) with
    | some tail => some tail
    | none => afterFirstOccurrence pat rest

/-- JavaScript `split` on a single-character separator. -/
def splitOnChar (sep : Char) : List Char → List (List Char)
  | [] => [[]]
  | c :: rest =>
    let r := splitOnChar sep rest
    if c = sep then [] :: r
    else
      match r with
      | [] => [[c]]
      | seg :: segs => (c :: seg) :: segs

/-- `path.indexOf("redirect_bridge.html") !== -1`. -/
def hasRedirectMarker (path : String) : Bool :=
  listContains "redirect_bridge.html".data path.data

/-- The handler's query-string splitting: `split('&')` then `split('=')`,
keeping key and (optional) value. -/
def parseQueryPairs (q : List Char) : List (String × Option String) :=
  (splitOnChar '&' q).map fun s =>
    match splitOnChar '=' s with
    | [] => ("", none)
    | [k] => (⟨k⟩, none)
    | k :: v :: _ => (⟨k⟩, some ⟨v⟩)

/-- Lookup in the handler's dictionary: assignments are applied in order,
so the last pair with the key wins; a missing key is `undefined`. -/
def queryDictGet (pairs : List (String × Option String)) (key : String) :
    Option String :=
  match (pairs.filter fun p => p.1 = key).getLast? with
  | some p => p.2
  | none => none

/-- Extraction of the `code` query parameter from the terminal redirect
path (`path.split('?')[1]`, then the dictionary build). -/
def extractCodeFromPath (path : String) : Option String :=
  match splitOnChar '?' path.data with
  | _ :: q :: _ => queryDictGet (parseQueryPairs q) "code"
  | _ => none

/-- `CowayService.authenticate` over a scripted list of responses: each
POST consumes the next response; while the final path lacks the
`redirect_bridge.html` marker the method replies with the synthetic
"skip password change" form and recurses, with no retry bound and no
error raised; on the terminal redirect it extracts the `code` parameter.
`none` on an exhausted script models a run that is still recursing. -/
def authenticate : List AuthResponse → Option String
  | [] => none
  | r :: rest =>
    if hasRedirectMarker r.path then extractCodeFromPath r.path
    else authenticate rest

/-! Token expiry check (`CowayService.executeIoCarePayload`). -/

structure AccessToken where
  accessToken : String
  refreshToken : String
deriving DecidableEq

namespace IoCareEndpoint
/-- The refresh endpoint key; only its identity is consulted
(`urlKey !== IoCareEndpoint.REFRESH_TOKEN`). -/
def REFRESH_TOKEN : String := "refresh-token-endpoint"
end IoCareEndpoint

/-- Base64 value of one character; Node's decoder accepts both the
standard and the url-safe alphabet and skips everything else. -/
def b64CharVal (c : Char) : Option Nat :=
  if 'A' ≤ c ∧ c ≤ 'Z' then some (c.toNat - 65)
  else if 'a' ≤ c ∧ c ≤ 'z' then some (c.toNat - 71)
  else if '0' ≤ c ∧ c ≤ '9' then some (c.toNat + 4)
  else if c = '+' ∨ c = '-' then some 62
  else if c = '/' ∨ c = '_' then some 63
  else none

/-- Reassemble 6-bit groups into bytes (4 → 3; trailing 3 → 2, 2 → 1). -/
def b64Groups : List Nat → List Nat
  | a :: b :: c :: d :: rest =>
    (a * 4 + b / 16) :: ((b % 16) * 16 + c / 4) :: ((c % 4) * 64 + d) ::
      b64Groups rest
  | [a, b, c] => [a * 4 + b / 16, (b % 16) * 16 + c / 4]
  | [a, b] => [a * 4 + b / 16]
  | _ => []

/-- `Buffer.from(s, 'base64')` as a byte list. -/
def b64Decode (s : String) : List Nat :=
  b64Groups (s.data.filterMap b64CharVal)

/-- The decoded bytes read back as text (the JWT payload is ASCII JSON). -/
def bytesToString (bs : List Nat) : String :=
  ⟨bs.map Char.ofNat⟩

/-- The `exp` claim of a decoded JWT payload, as
`JSON.parse(payload).exp` yields it for a payload carrying an integer
`exp` member; `none` models a payload without one (on which the real call
would throw or skip, neither of which the claims exercise). -/
def extractExpClaim (s : String) : Option Int :=
  match afterFirstOccurrence "\x22exp\x22:".data s.data with
  | some tail => jsParseInt ⟨tail⟩
  | none => none

/-- `JSON.parse(Buffer.from(accessToken.split(".")[1], 'base64')).exp`. -/
def jwtExpClaim (accessToken : String) : Option Int :=
  match splitOnChar '.' accessToken.data with
  | _ :: payload :: _ => extractExpClaim (bytesToString (b64Decode ⟨payload⟩))
  | _ => none

/-- The refresh gate at the head of `executeIoCarePayload`: when a
non-empty access token is present and the target is not the refresh
endpoint itself, decode the token's middle segment and compare its `exp`
(unix seconds) with the current time (milliseconds over 1000); when
expired, issue exactly one refresh call and replace both tokens in place
with the vendor's response.  Returns the number of refresh calls made and
the token pair the original request then proceeds with (`none` when the
decode fails, where the real call would throw). -/
def ensureFreshTokens (urlKey : String) (accessToken : Option AccessToken)
    (nowMs : Int) (refreshResponse : AccessToken) :
    Option (Nat × AccessToken) :=
  let t := accessToken.getD ⟨"", ""⟩
  if t.accessToken ≠ "" ∧ urlKey ≠ IoCareEndpoint.REFRESH_TOKEN then
    match jwtExpClaim t.accessToken with
    | none => none
    | some expire =>
      if (expire : ℚ) < (nowMs : ℚ) / 1000 then some (1, refreshResponse)
      else some (0, t)
  else some (0, t)

/-! Parallel poll regrouping (`CowayPlatform.refreshDevicesParallel`). -/

/-- `Accessory.zipEndpointResponses` lives in the accessory base class,
which is not among the sources at hand.  Modelled from the spec: results
are regrouped "preserving each accessory's endpoint order
(order-dependent zipping, not keyed matching)". -/
def zipEndpointResponses {E R : Type} (endpoints : List E) (chunk : List R) :
    List (E × R) :=
  endpoints.zip chunk

/-- The regrouping loop of `refreshDevicesParallel`: the flat response
list (one entry per issued request, in issue order) is spliced into
per-accessory chunks of the accessory's declared endpoint count, in
accessory order. -/
def refreshDevicesParallel {E R : Type} (accessories : List (List E))
    (responses : List R) : List (List (E × R)) :=
  match accessories with
  | [] => []
  | es :: rest =>
    zipEndpointResponses es (responses.take es.length) ::
      refreshDevicesParallel rest (responses.drop es.length)

/-- The numeric presentation direction of the fan scale (the body of
`getRotationSpeedPercentage`): level times `100/6`. -/
def rotationPercentOfLevel (l : Int) : ℚ := (l : ℚ) * ROTATION_SPEED_UNIT

/-- "Every response in the list lacks the terminal redirect marker". -/
def allLackRedirectMarker (rs : List AuthResponse) : Prop :=
  ∀ r ∈ rs, hasRedirectMarker r.path = false

instance (rs : List AuthResponse) : Decidable (allLackRedirectMarker rs) :=
  inferInstanceAs (Decidable (∀ r ∈ rs, _ = false))

/-! ## Claims -/

/-- C1, counterexample.  A login flow answering with three consecutive
responses that lack the terminal redirect marker does not raise any
protocol error: the negotiator keeps recursing (three retries here) and,
when a fourth response finally carries the marker, recovers the
authorization code.  This contradicts the claim that more than 2 redirects
are treated as a fatal protocol-mismatch error. -/
theorem claim_C1_counterexample :
    hasRedirectMarker "/a" = false ∧
    hasRedirectMarker "/b" = false ∧
    hasRedirectMarker "/c" = false ∧
    authenticate [⟨"/a"⟩, ⟨"/b"⟩, ⟨"/c"⟩,
      ⟨"/redirect_bridge.html?state=s&code=abc"⟩] = some "abc" := by
  decide

/-- C1, amended.  On every response whose final path lacks the redirect
marker, `authenticate` replies with the synthetic "skip password change"
form and retries, with no bound at all and no error: for every prefix of
marker-less responses (of any length, in particular three or more), the
negotiation keeps recursing and returns the `code` parameter of the first
response that carries the marker. -/
theorem claim_C1 (pre : List AuthResponse) (term : AuthResponse)
    (hpre : allLackRedirectMarker pre)
    (hterm : hasRedirectMarker term.path = true) :
    authenticate (pre ++ [term]) = extractCodeFromPath term.path := by
  induction pre with
  | nil => simp [authenticate, hterm]
  | cons r rest ih =>
    have hr : hasRedirectMarker r.path = false := hpre r (List.mem_cons_self r rest)
    have hrest : allLackRedirectMarker rest := fun x hx => hpre x (List.mem_cons_of_mem r hx)
    simpa [authenticate, hr] using ih hrest

/-- C1, witness for the amended theorem: three marker-less responses
followed by a terminal redirect still yield the code. -/
theorem claim_C1_witness :
    allLackRedirectMarker [⟨"/a"⟩, ⟨"/b"⟩, ⟨"/c"⟩] ∧
    hasRedirectMarker "/redirect_bridge.html?code=xyz" = true ∧
    authenticate [⟨"/a"⟩, ⟨"/b"⟩, ⟨"/c"⟩, ⟨"/redirect_bridge.html?code=xyz"⟩] =
      extractCodeFromPath "/redirect_bridge.html?code=xyz" :=
  ⟨by decide, by decide,
    claim_C1 [⟨"/a"⟩, ⟨"/b"⟩, ⟨"/c"⟩] ⟨"/redirect_bridge.html?code=xyz"⟩
      (by decide) (by decide)⟩

/-- C4.  The reported air-quality value coincides with the reference
classifier built from the spec's words: per-pollutant 5-level
classification with the fixed breakpoints, negative readings classified
unknown, the worse (higher) of the available classifications reported,
and unknown when the device is off or no density is available — in
particular PM10 = -1 with PM2.5 absent and the device on classifies
unknown. -/
theorem claim_C4 :
    (∀ (isOn : Bool) (iaq : IndoorAirQuality),
      getCurrentAirQuality isOn iaq =
        specAirQuality isOn iaq.pm10Density iaq.pm25Density) ∧
    getCurrentAirQuality true
      { humidity := none, pm25Density := none, pm10Density := some (-1)
        temperature := none, vocDensity := none } = HapAirQuality.UNKNOWN := by
  constructor
  · intro isOn iaq
    cases isOn with
    | false => rfl
    | true =>
      rcases iaq with ⟨h, p25, p10, t, v⟩
      cases p10 <;> cases p25 <;>
        simp [getCurrentAirQuality, specAirQuality, levelsMax]
  · decide

/-- Decoding a fan level back from its own percentage presentation is the
identity on levels. -/
theorem rotationLevel_of_percent_of_level (l : Int) :
    rotationLevelOfPercent (rotationPercentOfLevel l) = l := by
  unfold rotationLevelOfPercent rotationPercentOfLevel
  have hunit : (ROTATION_SPEED_UNIT : ℚ) ≠ 0 := by
    norm_num [ROTATION_SPEED_UNIT]
  rw [mul_div_cancel_right₀ _ hunit, Int.floor_int_add]
  norm_num

/-- C7.  The fan percentage round trip through the 1..6 ordinal is
idempotent after the second pass; in fact the second pass reproduces the
first exactly (hence certainly within one quantization step). -/
theorem claim_C7 (value : ℚ) (_h0 : 0 ≤ value) (_h100 : value ≤ 100) :
    rotationPercentOfLevel (rotationLevelOfPercent
        (rotationPercentOfLevel (rotationLevelOfPercent value))) =
      rotationPercentOfLevel (rotationLevelOfPercent value) := by
  rw [rotationLevel_of_percent_of_level]

/-- C7, witness at 25%: level 2, percentage 100/3, stable thereafter. -/
theorem claim_C7_witness :
    0 ≤ (25 : ℚ) ∧ (25 : ℚ) ≤ 100 ∧
    rotationPercentOfLevel (rotationLevelOfPercent
        (rotationPercentOfLevel (rotationLevelOfPercent 25))) =
      rotationPercentOfLevel (rotationLevelOfPercent 25) :=
  ⟨by norm_num, by norm_num, claim_C7 25 (by norm_num) (by norm_num)⟩

/-- C9.  A poll refresh of a disconnected device returns early: the
stored context (filter infos, indoor air quality, control info) is
unchanged and no characteristic update is pushed, whatever the responses
contain. -/
theorem claim_C9 (responses : AccessoryResponses) (ctx : MarvelCtx) :
    refresh false responses ctx = (ctx, []) := by
  simp [refresh]

/-- The RotationSpeed SET handler with the device off and a genuinely new
level sends the power-on command followed by the level command. -/
theorem setFanPercentage_off_eq (ctx : ControlInfo) (value : ℚ)
    (hoff : ctx.on = false)
    (hne : rotationLevelOfPercent value ≠ getRotationSpeed ctx.fanSpeed) :
    setFanPercentage ctx false value =
      match createCommandFromRotationSpeed (rotationLevelOfPercent value) with
      | some c => [⟨FieldKey.POWER, Power.ON⟩, c]
      | none => [] := by
  unfold setFanPercentage
  simp [hoff, Ne.symm hne]

/-- C2.  With the device off and a percentage decoding to a level in 1..6
that differs from the level the device reports, the handler emits exactly
two commands, power-on first and then the level command, where levels
1, 5, 6 yield mode commands and 2..4 yield fan-speed commands; a
percentage decoding to exactly the reported level emits no command at
all. -/
theorem claim_C2 :
    (∀ (ctx : ControlInfo) (value : ℚ),
      ctx.on = false →
      1 ≤ rotationLevelOfPercent value →
      rotationLevelOfPercent value ≤ 6 →
      rotationLevelOfPercent value ≠ getRotationSpeed ctx.fanSpeed →
      ∃ c, createCommandFromRotationSpeed (rotationLevelOfPercent value) = some c ∧
        setFanPercentage ctx false value = [⟨FieldKey.POWER, Power.ON⟩, c] ∧
        ((rotationLevelOfPercent value = 1 ∨ rotationLevelOfPercent value = 5 ∨
            rotationLevelOfPercent value = 6) → c.key = FieldKey.MODE) ∧
        ((rotationLevelOfPercent value = 2 ∨ rotationLevelOfPercent value = 3 ∨
            rotationLevelOfPercent value = 4) → c.key = FieldKey.FAN_SPEED)) ∧
    (∀ (ctx : ControlInfo) (characteristicRefreshing : Bool) (value : ℚ),
      rotationLevelOfPercent value = getRotationSpeed ctx.fanSpeed →
      setFanPercentage ctx characteristicRefreshing value = []) := by
  constructor
  · intro ctx value hoff h1 h6 hne
    have hsplit : rotationLevelOfPercent value = 1 ∨ rotationLevelOfPercent value = 2 ∨
        rotationLevelOfPercent value = 3 ∨ rotationLevelOfPercent value = 4 ∨
        rotationLevelOfPercent value = 5 ∨ rotationLevelOfPercent value = 6 := by omega
    have heq := setFanPercentage_off_eq ctx value hoff hne
    rcases hsplit with h | h | h | h | h | h <;> rw [h] at heq ⊢
    · exact ⟨⟨FieldKey.MODE, Mode.SILENT⟩, rfl, heq.trans rfl, by decide, by decide⟩
    · exact ⟨⟨FieldKey.FAN_SPEED, FanSpeed.WEAK⟩, rfl, heq.trans rfl, by decide, by decide⟩
    · exact ⟨⟨FieldKey.FAN_SPEED, FanSpeed.MEDIUM⟩, rfl, heq.trans rfl, by decide, by decide⟩
    · exact ⟨⟨FieldKey.FAN_SPEED, FanSpeed.STRONG⟩, rfl, heq.trans rfl, by decide, by decide⟩
    · exact ⟨⟨FieldKey.MODE, Mode.TURBO⟩, rfl, heq.trans rfl, by decide, by decide⟩
    · exact ⟨⟨FieldKey.MODE, Mode.MY_PET⟩, rfl, heq.trans rfl, by decide, by decide⟩
  · intro ctx refreshing value heq
    unfold setFanPercentage
    simp [heq]

/-- C2, witness: device off with fan-speed SHUTDOWN, 50% decodes to level
3 and yields power-on followed by the medium fan-speed command; 100/3 %
against a reported WEAK (level 2) emits nothing. -/
theorem claim_C2_witness :
    setFanPercentage
        { «on» := false, lightbulbInfo := { «on» := false, brightness := some 0 }
          airQuality := some 1, mode := JSVal.str Mode.AUTO_DRIVING
          fanSpeed := JSVal.str FanSpeed.SHUTDOWN } false 50 =
      [⟨FieldKey.POWER, Power.ON⟩, ⟨FieldKey.FAN_SPEED, FanSpeed.MEDIUM⟩] ∧
    setFanPercentage
        { «on» := true, lightbulbInfo := { «on» := false, brightness := some 0 }
          airQuality := some 1, mode := JSVal.str Mode.SILENT
          fanSpeed := JSVal.str FanSpeed.WEAK } false (100 / 3) = [] := by
  have h3 : rotationLevelOfPercent 50 = 3 := by
    norm_num [rotationLevelOfPercent, ROTATION_SPEED_UNIT]
  have h2 : rotationLevelOfPercent (100 / 3) = 2 := by
    norm_num [rotationLevelOfPercent, ROTATION_SPEED_UNIT]
  constructor
  · obtain ⟨c, hc, hs, -, -⟩ := claim_C2.1
      { «on» := false, lightbulbInfo := { «on» := false, brightness := some 0 }
        airQuality := some 1, mode := JSVal.str Mode.AUTO_DRIVING
        fanSpeed := JSVal.str FanSpeed.SHUTDOWN } 50
      rfl (by rw [h3]; decide) (by rw [h3]; decide) (by rw [h3]; decide)
    rw [h3] at hc
    have hcv : c = ⟨FieldKey.FAN_SPEED, FanSpeed.MEDIUM⟩ :=
      (Option.some.inj hc).symm
    rw [hs, hcv]
  · exact claim_C2.2 _ false (100 / 3) (by rw [h2]; decide)

/-- C5, counterexample.  With the device off and its light off, the `On`
SET handler sent a batch holding only the power-on command: no light
command is in the batch, contradicting the claim that the batch contains
the power command and the light command in that order. -/
theorem claim_C5_counterexample :
    (setLightOn
        { «on» := false, lightbulbInfo := { «on» := false, brightness := some 0 }
          airQuality := some 1, mode := JSVal.str Mode.AUTO_DRIVING
          fanSpeed := JSVal.str FanSpeed.SHUTDOWN } true).1 =
      [⟨FieldKey.POWER, Power.ON⟩] ∧
    (⟨FieldKey.LIGHT, Light.ON⟩ : PayloadCommand) ∉
      (setLightOn
        { «on» := false, lightbulbInfo := { «on» := false, brightness := some 0 }
          airQuality := some 1, mode := JSVal.str Mode.AUTO_DRIVING
          fanSpeed := JSVal.str FanSpeed.SHUTDOWN } true).1 := by
  decide

/-- C5, amended.  Turning the light on through `setLightOn` while the
device is off sends only the power-on command (the light command is left
to the device's power-on behaviour and the local light state is
unchanged); setting a non-zero brightness while the device is off does
prepend power-on to the same batch as the brightness command, in that
order. -/
theorem claim_C5 :
    (∀ (ctx : ControlInfo),
      ctx.on = false → ctx.lightbulbInfo.on = false →
      setLightOn ctx true = ([⟨FieldKey.POWER, Power.ON⟩], ctx)) ∧
    (∀ (ctx : ControlInfo) (value : ℚ),
      ctx.on = false →
      brightnessLevelOfPercent value ≠ 0 →
      ctx.lightbulbInfo.brightness ≠ some (brightnessLevelOfPercent value) →
      (setLightBrightness ctx value).1 =
        [⟨FieldKey.POWER, Power.ON⟩,
         ⟨FieldKey.LIGHT_BRIGHTNESS, toString (brightnessLevelOfPercent value)⟩]) := by
  constructor
  · intro ctx hoff hlight
    unfold setLightOn
    simp [hoff, hlight]
  · intro ctx value hoff hnz hne
    unfold setLightBrightness
    simp [hoff, hnz, hne]

/-- C5, witness for the amended theorem: device off, light off, 100%
brightness (level 3). -/
theorem claim_C5_witness :
    setLightOn
        { «on» := false, lightbulbInfo := { «on» := false, brightness := some 0 }
          airQuality := some 1, mode := JSVal.str Mode.AUTO_DRIVING
          fanSpeed := JSVal.str FanSpeed.SHUTDOWN } true =
      ([⟨FieldKey.POWER, Power.ON⟩],
        { «on» := false, lightbulbInfo := { «on» := false, brightness := some 0 }
          airQuality := some 1, mode := JSVal.str Mode.AUTO_DRIVING
          fanSpeed := JSVal.str FanSpeed.SHUTDOWN }) ∧
    (setLightBrightness
        { «on» := false, lightbulbInfo := { «on» := false, brightness := some 0 }
          airQuality := some 1, mode := JSVal.str Mode.AUTO_DRIVING
          fanSpeed := JSVal.str FanSpeed.SHUTDOWN } 100).1 =
      [⟨FieldKey.POWER, Power.ON⟩, ⟨FieldKey.LIGHT_BRIGHTNESS, "3"⟩] :=
  ⟨claim_C5.1 _ rfl rfl,
    by
      have hb : brightnessLevelOfPercent 100 = 3 := by
        norm_num [brightnessLevelOfPercent, LIGHTBULB_BRIGHTNESS_UNIT]
      have h := claim_C5.2
        { «on» := false, lightbulbInfo := { «on» := false, brightness := some 0 }
          airQuality := some 1, mode := JSVal.str Mode.AUTO_DRIVING
          fanSpeed := JSVal.str FanSpeed.SHUTDOWN } 100
        rfl (by rw [hb]; decide) (by rw [hb]; decide)
      rw [hb] at h
      exact h.trans rfl⟩

/-- C10.  Powering off a running device forces the local light state off
before the vendor call — the light flag is cleared and, when a brightness
field is present, it is set to 0 — and exactly the single power-off
command is sent, with no separate light command. -/
theorem claim_C10 (ctx : ControlInfo) (hon : ctx.on = true) :
    (setPower ctx false).1 = [⟨FieldKey.POWER, Power.OFF⟩] ∧
    (setPower ctx false).2.on = false ∧
    (setPower ctx false).2.lightbulbInfo.on = false ∧
    (∀ b : Int, ctx.lightbulbInfo.brightness = some b →
      (setPower ctx false).2.lightbulbInfo.brightness = some 0) := by
  unfold setPower
  simp [hon]
  intro b hb
  rw [hb]

/-- C10, witness: a running device with light on at brightness 2. -/
theorem claim_C10_witness :
    (setPower
        { «on» := true, lightbulbInfo := { «on» := true, brightness := some 2 }
          airQuality := some 1, mode := JSVal.str Mode.AUTO_DRIVING
          fanSpeed := JSVal.str FanSpeed.WEAK } false).1 =
      [⟨FieldKey.POWER, Power.OFF⟩] ∧
    (setPower
        { «on» := true, lightbulbInfo := { «on» := true, brightness := some 2 }
          airQuality := some 1, mode := JSVal.str Mode.AUTO_DRIVING
          fanSpeed := JSVal.str FanSpeed.WEAK } false).2.lightbulbInfo.brightness =
      some 0 := by
  obtain ⟨h1, -, -, h4⟩ := claim_C10
    { «on» := true, lightbulbInfo := { «on» := true, brightness := some 2 }
      airQuality := some 1, mode := JSVal.str Mode.AUTO_DRIVING
      fanSpeed := JSVal.str FanSpeed.WEAK } rfl
  exact ⟨h1, h4 2 rfl⟩

/-- C3.  Before an authenticated call, the gateway decodes the access
token's middle base64url segment and compares its `exp` claim (unix
seconds) with the current time: an expired token triggers exactly one
refresh call, replacing both tokens in place before the original request
proceeds; an unexpired token triggers none; and the refresh call itself
never triggers a nested refresh. -/
theorem claim_C3 (urlKey : String) (tok : AccessToken) (nowMs : Int)
    (resp : AccessToken) (e : Int)
    (htok : tok.accessToken ≠ "")
    (hexp : jwtExpClaim tok.accessToken = some e) :
    (urlKey ≠ IoCareEndpoint.REFRESH_TOKEN →
      ((e : ℚ) < (nowMs : ℚ) / 1000 →
        ensureFreshTokens urlKey (some tok) nowMs resp = some (1, resp)) ∧
      (¬((e : ℚ) < (nowMs : ℚ) / 1000) →
        ensureFreshTokens urlKey (some tok) nowMs resp = some (0, tok))) ∧
    ensureFreshTokens IoCareEndpoint.REFRESH_TOKEN (some tok) nowMs resp =
      some (0, tok) := by
  refine ⟨fun hurl => ⟨fun hlt => ?_, fun hge => ?_⟩, ?_⟩
  · unfold ensureFreshTokens
    simp [htok, hurl, hexp, hlt]
  · unfold ensureFreshTokens
    simp [htok, hurl, hexp, hge]
  · unfold ensureFreshTokens
    simp

/-- C3, witness on a real JWT-shaped token whose payload decodes to
`exp = 1700000000`: one second past expiry refreshes once and replaces
the pair; an hour before expiry leaves the pair untouched; the refresh
endpoint itself never refreshes. -/
theorem claim_C3_witness :
    jwtExpClaim "hdr.eyJleHAiOjE3MDAwMDAwMDB9.sig" = some 1700000000 ∧
    ensureFreshTokens "other-endpoint"
        (some ⟨"hdr.eyJleHAiOjE3MDAwMDAwMDB9.sig", "rt"⟩)
        1700000001000 ⟨"newAccess", "newRefresh"⟩ =
      some (1, ⟨"newAccess", "newRefresh"⟩) ∧
    ensureFreshTokens "other-endpoint"
        (some ⟨"hdr.eyJleHAiOjE3MDAwMDAwMDB9.sig", "rt"⟩)
        1699996400000 ⟨"newAccess", "newRefresh"⟩ =
      some (0, ⟨"hdr.eyJleHAiOjE3MDAwMDAwMDB9.sig", "rt"⟩) ∧
    ensureFreshTokens IoCareEndpoint.REFRESH_TOKEN
        (some ⟨"hdr.eyJleHAiOjE3MDAwMDAwMDB9.sig", "rt"⟩)
        1700000001000 ⟨"newAccess", "newRefresh"⟩ =
      some (0, ⟨"hdr.eyJleHAiOjE3MDAwMDAwMDB9.sig", "rt"⟩) := by
  have hexp : jwtExpClaim "hdr.eyJleHAiOjE3MDAwMDAwMDB9.sig" = some 1700000000 := by
    decide
  have h := claim_C3 "other-endpoint"
    ⟨"hdr.eyJleHAiOjE3MDAwMDAwMDB9.sig", "rt"⟩ 1700000001000
    ⟨"newAccess", "newRefresh"⟩ 1700000000 (by decide) hexp
  have h' := claim_C3 "other-endpoint"
    ⟨"hdr.eyJleHAiOjE3MDAwMDAwMDB9.sig", "rt"⟩ 1699996400000
    ⟨"newAccess", "newRefresh"⟩ 1700000000 (by decide) hexp
  refine ⟨hexp, (h.1 (by decide)).1 (by norm_num), (h'.1 (by decide)).2 (by norm_num), h.2⟩

/-- C6.  When each accessory's per-endpoint requests resolve in issue
order into one flat response list, the regrouping loop hands the first
accessory its declared number of responses zipped against its endpoints
in declared order, the second accessory the next chunk, and so on. -/
theorem claim_C6 {E R : Type} (accs : List (List E)) (rss : List (List R))
    (hlen : List.Forall₂ (fun es rs => es.length = rs.length) accs rss) :
    refreshDevicesParallel accs rss.flatten =
      List.zipWith List.zip accs rss := by
  induction hlen with
  | nil => rfl
  | @cons es rs accsRest rssRest hlen₁ _ ih =>
    show zipEndpointResponses es ((rs ++ rssRest.flatten).take es.length) ::
        refreshDevicesParallel accsRest ((rs ++ rssRest.flatten).drop es.length) = _
    rw [hlen₁, List.take_left, List.drop_left, ih]
    rfl

/-- C6, witness: accessory A with endpoints a1 a2, accessory B with b1,
and the three responses 0, 1, 2 in issue order: A gets responses 0 and 1
in its endpoint order and B gets response 2. -/
theorem claim_C6_witness :
    List.Forall₂ (fun (es : List String) (rs : List Nat) => es.length = rs.length)
      [["a1", "a2"], ["b1"]] [[0, 1], [2]] ∧
    refreshDevicesParallel [["a1", "a2"], ["b1"]] ([[0, 1], [2]] : List (List Nat)).flatten =
      [[("a1", 0), ("a2", 1)], [("b1", 2)]] := by
  have hf : List.Forall₂ (fun (es : List String) (rs : List Nat) => es.length = rs.length)
      [["a1", "a2"], ["b1"]] [[0, 1], [2]] :=
    List.Forall₂.cons rfl (List.Forall₂.cons rfl List.Forall₂.nil)
  exact ⟨hf, (claim_C6 _ _ hf).trans rfl⟩

/-- C8.  The numeric field parsers are total into the numbers (no `NaN`
escapes): `undefined`, `null`, the empty string, `NaN` itself, and every
string on which the underlying JavaScript parse is `NaN` (non-numeric
input) all map to the default 0, for the integer parser (brightness,
filter percentages) and the float parser (humidity, densities,
temperature) alike. -/
theorem claim_C8 :
    (parseNullableInt JSVal.undef = 0 ∧ parseNullableInt JSVal.null = 0 ∧
      parseNullableInt (JSVal.str "") = 0 ∧ parseNullableInt JSVal.nan = 0) ∧
    (∀ s : String, jsParseInt s = none → parseNullableInt (JSVal.str s) = 0) ∧
    (parseNullableFloat JSVal.undef = 0 ∧ parseNullableFloat JSVal.null = 0 ∧
      parseNullableFloat (JSVal.str "") = 0 ∧ parseNullableFloat JSVal.nan = 0) ∧
    (∀ s : String, jsParseFloat s = none → parseNullableFloat (JSVal.str s) = 0) := by
  refine ⟨⟨rfl, rfl, rfl, rfl⟩, fun s hs => ?_, ⟨rfl, rfl, rfl, rfl⟩, fun s hs => ?_⟩
  · unfold parseNullableInt
    split
    · rfl
    · simp [jsvalParseInt, hs]
  · unfold parseNullableFloat
    split
    · rfl
    · simp [jsvalParseFloat, hs]

/-- C8, witness: the non-numeric string "abc" parses as `NaN` and both
parsers default it to 0. -/
theorem claim_C8_witness :
    jsParseInt "abc" = none ∧ jsParseFloat "abc" = none ∧
    parseNullableInt (JSVal.str "abc") = 0 ∧
    parseNullableFloat (JSVal.str "abc") = 0 :=
  ⟨by decide, by decide,
    claim_C8.2.1 "abc" (by decide), claim_C8.2.2.2 "abc" (by decide)⟩
